import Mathlib

/-!
Shallow embedding of `src/cloud-functions/main.py` (arb_translator cloud
function): the `/translate` and `/validate` Flask handlers.

JSON values are modelled by `JVal`; Python truthiness by `jTruthy`;
Python `dict` update semantics by `dictInsert`/`dictLookup`.  The external
collaborator (`translator.generate_for_language` plus the subsequent file
read and JSON decode, lines 84-88) is modelled by an oracle
`Env.attempt : Nat → JVal → Except String (String × JVal)` giving, per
attempt index and language, either the exception message raised anywhere
inside the inner `try` or the pair (target path, translated content).
Staging (the `tempfile.NamedTemporaryFile` + `json.dump` block, lines
76-78) is the oracle `Env.staging : Except String String` yielding the
source path.  `os.unlink` (line 105) may fail (`Env.unlinkOk`); the code
swallows the failure (`except: pass`).
-/

/-- A parsed JSON value (the result of `request.get_json()`).  Integers
suffice for the numbers appearing in the development. -/
inductive JVal where
  | null : JVal
  | bool : Bool → JVal
  | num : Int → JVal
  | str : String → JVal
  | arr : List JVal → JVal
  | obj : List (String × JVal) → JVal
deriving Repr

mutual

/-- Boolean structural equality of JSON values. -/
def JVal.beq : JVal → JVal → Bool
  | .null, .null => true
  | .bool a, .bool b => a == b
  | .num a, .num b => a == b
  | .str a, .str b => a == b
  | .arr xs, .arr ys => JVal.beqList xs ys
  | .obj xs, .obj ys => JVal.beqObj xs ys
  | _, _ => false

/-- Structural equality of JSON arrays. -/
def JVal.beqList : List JVal → List JVal → Bool
  | [], [] => true
  | x :: xs, y :: ys => JVal.beq x y && JVal.beqList xs ys
  | _, _ => false

/-- Structural equality of JSON object entry lists. -/
def JVal.beqObj : List (String × JVal) → List (String × JVal) → Bool
  | [], [] => true
  | (k, v) :: xs, (l, w) :: ys => k == l && JVal.beq v w && JVal.beqObj xs ys
  | _, _ => false

end

mutual

theorem JVal.beq_iff : ∀ a b : JVal, JVal.beq a b = true ↔ a = b
  | .null, .null => by simp [JVal.beq]
  | .null, .bool _ => by simp [JVal.beq]
  | .null, .num _ => by simp [JVal.beq]
  | .null, .str _ => by simp [JVal.beq]
  | .null, .arr _ => by simp [JVal.beq]
  | .null, .obj _ => by simp [JVal.beq]
  | .bool _, .null => by simp [JVal.beq]
  | .bool _, .bool _ => by simp [JVal.beq]
  | .bool _, .num _ => by simp [JVal.beq]
  | .bool _, .str _ => by simp [JVal.beq]
  | .bool _, .arr _ => by simp [JVal.beq]
  | .bool _, .obj _ => by simp [JVal.beq]
  | .num _, .null => by simp [JVal.beq]
  | .num _, .bool _ => by simp [JVal.beq]
  | .num _, .num _ => by simp [JVal.beq]
  | .num _, .str _ => by simp [JVal.beq]
  | .num _, .arr _ => by simp [JVal.beq]
  | .num _, .obj _ => by simp [JVal.beq]
  | .str _, .null => by simp [JVal.beq]
  | .str _, .bool _ => by simp [JVal.beq]
  | .str _, .num _ => by simp [JVal.beq]
  | .str _, .str _ => by simp [JVal.beq]
  | .str _, .arr _ => by simp [JVal.beq]
  | .str _, .obj _ => by simp [JVal.beq]
  | .arr _, .null => by simp [JVal.beq]
  | .arr _, .bool _ => by simp [JVal.beq]
  | .arr _, .num _ => by simp [JVal.beq]
  | .arr _, .str _ => by simp [JVal.beq]
  | .arr xs, .arr ys => by
      have h := JVal.beqList_iff xs ys
      simp [JVal.beq, h]
  | .arr _, .obj _ => by simp [JVal.beq]
  | .obj _, .null => by simp [JVal.beq]
  | .obj _, .bool _ => by simp [JVal.beq]
  | .obj _, .num _ => by simp [JVal.beq]
  | .obj _, .str _ => by simp [JVal.beq]
  | .obj _, .arr _ => by simp [JVal.beq]
  | .obj xs, .obj ys => by
      have h := JVal.beqObj_iff xs ys
      simp [JVal.beq, h]

theorem JVal.beqList_iff : ∀ xs ys : List JVal, JVal.beqList xs ys = true ↔ xs = ys
  | [], [] => by simp [JVal.beqList]
  | [], _ :: _ => by simp [JVal.beqList]
  | _ :: _, [] => by simp [JVal.beqList]
  | x :: xs, y :: ys => by
      have h1 := JVal.beq_iff x y
      have h2 := JVal.beqList_iff xs ys
      simp [JVal.beqList, h1, h2]

theorem JVal.beqObj_iff : ∀ xs ys : List (String × JVal), JVal.beqObj xs ys = true ↔ xs = ys
  | [], [] => by simp [JVal.beqObj]
  | [], _ :: _ => by simp [JVal.beqObj]
  | _ :: _, [] => by simp [JVal.beqObj]
  | (k, v) :: xs, (l, w) :: ys => by
      have h1 := JVal.beq_iff v w
      have h2 := JVal.beqObj_iff xs ys
      simp [JVal.beqObj, h1, h2]

end

instance : DecidableEq JVal := fun a b => decidable_of_iff _ (JVal.beq_iff a b)

/-- Python truthiness (`if not x`) of a parsed JSON value. -/
def jTruthy : JVal → Bool
  | .null => false
  | .bool b => b
  | .num n => n != 0
  | .str s => s != ""
  | .arr xs => !xs.isEmpty
  | .obj kvs => !kvs.isEmpty

/-- The Python type name of a JSON value, used in exception messages. -/
def pyType : JVal → String
  | .null => "NoneType"
  | .bool _ => "bool"
  | .num _ => "int"
  | .str _ => "str"
  | .arr _ => "list"
  | .obj _ => "dict"

/-- Python `s.startswith(p)`, computed on character lists so that it
evaluates by kernel reduction. -/
def pyStartsWith (s p : String) : Bool :=
  p.data.isPrefixOf s.data

/-- Lookup in the entry list of a parsed JSON object.  A parsed object
represents a Python `dict`, so keys are unique and first match is the
match. -/
def objGet (kvs : List (String × JVal)) (k : String) : Option JVal :=
  match kvs with
  | [] => none
  | kv :: rest => if kv.1 = k then some kv.2 else objGet rest k

/-- Python `data.get(key, default)`; raises `AttributeError` when `data`
is not a `dict`. -/
def jGet (data : JVal) (k : String) (dflt : JVal) : Except String JVal :=
  match data with
  | .obj kvs => .ok ((objGet kvs k).getD dflt)
  | v => .error ("'" ++ pyType v ++ "' object has no attribute 'get'")

/-- Python `content.keys()`: succeeds only on a `dict`; any other parsed
JSON value raises `AttributeError`. -/
def jKeys : JVal → Except String (List String)
  | .obj kvs => .ok (kvs.map Prod.fst)
  | v => .error ("'" ++ pyType v ++ "' object has no attribute 'keys'")

/-! ## The `/validate` handler (lines 139-171 of main.py) -/

/-- The body of a successful `/validate` response. -/
structure ValidationReport where
  valid : Bool
  issues : List String
  keyCount : Nat
deriving DecidableEq, Repr

/-- A `/validate` HTTP response: 200 with a report, or an error body with
status 400 / 500. -/
inductive VResp where
  | ok : ValidationReport → VResp
  | err400 : String → VResp
  | err500 : String → VResp
deriving DecidableEq, Repr

/-- The issue list accumulated by lines 150-162: a single structural issue
when `content` is not a `dict`; otherwise the `@@locale` check followed by
one `Empty value` issue per non-metadata key whose value is `''` or
`None`, in dict order. -/
def bundleIssues (content : JVal) : List String :=
  match content with
  | .obj kvs =>
      (if (objGet kvs "@@locale").isSome then [] else ["Missing @@locale metadata"])
        ++ kvs.filterMap (fun kv =>
            if ¬ pyStartsWith kv.1 "@" ∧ (kv.2 = .str "" ∨ kv.2 = .null) then
              some ("Empty value for key: " ++ kv.1)
            else none)
  | _ => ["Content must be a JSON object"]

/-- The `/validate` Flask handler.  `body` is the value of
`request.get_json()` (`none` when there is no parseable body).  Note that
line 167 evaluates `content.keys()` unconditionally, so a non-`dict`
`content` raises inside the response construction and lands in the
`except` clause (500), despite the `isinstance` guard on line 152. -/
def validateHandler (body : Option JVal) : VResp :=
  match body with
  | none => .err400 "No JSON payload provided"
  | some data =>
    if ¬ jTruthy data then .err400 "No JSON payload provided"
    else
      match jGet data "content" (.obj []) with
      | .error e => .err500 ("Validation failed: " ++ e)
      | .ok content =>
        let issues := bundleIssues content
        match jKeys content with
        | .error e => .err500 ("Validation failed: " ++ e)
        | .ok ks =>
          .ok { valid := issues.isEmpty
                issues := issues
                keyCount := (ks.filter (fun k => !pyStartsWith k "@")).length }

/-! ## The `/translate` handler (lines 45-119 of main.py)

External effects are oracles in `Env`:
* `tempfile`: `tempfile.NamedTemporaryFile(...)` (line 76) — the staging
  artifact's path, or the exception message if creation raises;
* `dump`: `json.dump(content, f, ...)` (line 77) — performed after the
  artifact exists, may still raise (the artifact then leaks: the
  `try/finally` of lines 80-107 has not been entered yet);
* `attempt i lang`: the whole inner `try` body of attempt `i` (lines
  84-88: `generate_for_language`, the file read, and `json.load`) — the
  pair (target path, translated content), or the message of whatever
  exception it raised;
* `unlinkOk`: whether `os.unlink(source_path)` (line 105) succeeds; its
  failure is swallowed by `except: pass`.

`get_translator()` (line 72) is collaborator construction, out of scope
per the spec, and is modelled as succeeding.  `sourceLanguage` is read on
line 64 but never used afterwards, so it does not appear here. -/

/-- The oracles for one `/translate` call. -/
structure Env where
  tempfile : Except String String
  dump : Except String Unit
  attempt : Nat → JVal → Except String (String × JVal)
  unlinkOk : Bool

/-- One entry of the `results` dict (lines 90-100). -/
inductive Outcome where
  | translated : JVal → String → Outcome
  | failed : String → Outcome
deriving DecidableEq, Repr

/-- `r['success']` of a results entry. -/
def Outcome.isSuccess : Outcome → Bool
  | .translated _ _ => true
  | .failed _ => false

/-- `summary` of a successful `/translate` response. -/
structure Summary where
  totalLanguages : Nat
  successful : Nat
  failed : Nat
deriving DecidableEq, Repr

/-- The `results` dict: language value ↦ outcome, in insertion order. -/
abbrev ResultsMap := List (JVal × Outcome)

/-- Python `results[language] = v`: update the key's slot in place when
the key is present (keeping its position), else append a new entry. -/
def dictInsert : ResultsMap → JVal → Outcome → ResultsMap
  | [], k, v => [(k, v)]
  | p :: rest, k, v => if p.1 = k then (k, v) :: rest else p :: dictInsert rest k v

/-- Python dict lookup on the results map. -/
def dictLookup (d : ResultsMap) (k : JVal) : Option Outcome :=
  match d with
  | [] => none
  | p :: rest => if p.1 = k then some p.2 else dictLookup rest k

/-- Python `for language in languages` over a parsed JSON value: a list
iterates its elements, a string its characters, a dict its keys; any
other value raises `TypeError` (this happens only at the loop, after
staging, because the earlier check is only for truthiness). -/
def iterElems : JVal → Except String (List JVal)
  | .arr xs => .ok xs
  | .str s => .ok (s.toList.map (fun c => .str (String.mk [c])))
  | .obj kvs => .ok (kvs.map (fun kv => .str kv.1))
  | v => .error ("'" ++ pyType v ++ "' object is not iterable")

/-- One iteration of the per-language loop (lines 83-100): any exception
from the inner `try` is converted to a `Failed` record. -/
def attemptOutcome (env : Env) (i : Nat) (lang : JVal) : Outcome :=
  match env.attempt i lang with
  | .ok pc => .translated pc.2 pc.1
  | .error e => .failed e

/-- The per-attempt outcomes in request order, one independent provider
attempt per element of `langs`. -/
def attemptList (env : Env) (langs : List JVal) : List (JVal × Outcome) :=
  langs.enum.map (fun p => (p.2, attemptOutcome env p.1 p.2))

/-- The `results` dict after the loop: each attempt's outcome is written
with `results[language] = ...`, so a later duplicate language overwrites
the earlier outcome. -/
def buildResults (env : Env) (langs : List JVal) : ResultsMap :=
  (attemptList env langs).foldl (fun d p => dictInsert d p.1 p.2) []

/-- Lines 111-115: `totalLanguages` is `len(languages)`, while
`successful` / `failed` count over the values of the `results` dict. -/
def mkSummary (langs : List JVal) (results : ResultsMap) : Summary :=
  { totalLanguages := langs.length
    successful := (results.filter (fun p => p.2.isSuccess)).length
    failed := (results.filter (fun p => !p.2.isSuccess)).length }

/-- A `/translate` HTTP response. -/
inductive TResp where
  | ok : ResultsMap → Summary → TResp
  | err400 : String → TResp
  | err500 : String → TResp
deriving DecidableEq, Repr

/-- Observable side effects of one `/translate` call: whether the staging
block was entered, whether the temporary source file came to exist, the
provider invocations (attempt index, language) in order, and how many
times `os.unlink` was invoked on the source file. -/
structure Trace where
  stagingEntered : Bool
  fileCreated : Bool
  providerCalls : List (Nat × JVal)
  unlinkCalls : Nat
deriving DecidableEq, Repr

/-- Result of one `/translate` call: the HTTP response plus the trace. -/
structure TOut where
  resp : TResp
  trace : Trace
deriving DecidableEq, Repr

/-- The `/translate` Flask handler.  `body` is the value of
`request.get_json()`.  The two `data.get` calls need `data` to be a
`dict`, hence the single match on `data`; a truthy non-`dict` body raises
`AttributeError` into the outer `except` (500). -/
def translateHandler (env : Env) (body : Option JVal) : TOut :=
  match body with
  | none => ⟨.err400 "No JSON payload provided", ⟨false, false, [], 0⟩⟩
  | some data =>
    if ¬ jTruthy data then ⟨.err400 "No JSON payload provided", ⟨false, false, [], 0⟩⟩
    else
      match data with
      | .obj kvs =>
        let content := (objGet kvs "content").getD (.obj [])
        let languages := (objGet kvs "languages").getD (.arr [])
        if ¬ jTruthy content then
          ⟨.err400 "No content provided", ⟨false, false, [], 0⟩⟩
        else if ¬ jTruthy languages then
          ⟨.err400 "No target languages specified", ⟨false, false, [], 0⟩⟩
        else
          match env.tempfile with
          | .error e =>
              ⟨.err500 ("Translation failed: " ++ e), ⟨true, false, [], 0⟩⟩
          | .ok _sourcePath =>
            match env.dump with
            | .error e =>
                ⟨.err500 ("Translation failed: " ++ e), ⟨true, true, [], 0⟩⟩
            | .ok _ =>
              match iterElems languages with
              | .error e =>
                  ⟨.err500 ("Translation failed: " ++ e), ⟨true, true, [], 1⟩⟩
              | .ok langs =>
                let results := buildResults env langs
                ⟨.ok results (mkSummary langs results),
                  ⟨true, true, langs.enum, 1⟩⟩
      | v =>
          ⟨.err500 ("Translation failed: '" ++ pyType v ++ "' object has no attribute 'get'"),
            ⟨false, false, [], 0⟩⟩

/-! ## Helper lemmas -/

theorem objGet_ne_nil {kvs : List (String × JVal)} {k : String} {v : JVal}
    (h : objGet kvs k = some v) : kvs ≠ [] := by
  intro hn
  subst hn
  simp [objGet] at h

theorem jTruthy_obj_of_ne_nil {kvs : List (String × JVal)} (h : kvs ≠ []) :
    jTruthy (.obj kvs) = true := by
  cases kvs with
  | nil => exact absurd rfl h
  | cons p rest => rfl

theorem jTruthy_arr_of_ne_nil {xs : List JVal} (h : xs ≠ []) :
    jTruthy (.arr xs) = true := by
  cases xs with
  | nil => exact absurd rfl h
  | cons x rest => rfl

theorem dictLookup_dictInsert_self (d : ResultsMap) (k : JVal) (v : Outcome) :
    dictLookup (dictInsert d k v) k = some v := by
  induction d with
  | nil => simp [dictInsert, dictLookup]
  | cons p rest ih =>
    by_cases hp : p.1 = k
    · simp [dictInsert, dictLookup, hp]
    · simp [dictInsert, dictLookup, hp, ih]

theorem dictLookup_dictInsert_ne (d : ResultsMap) (k k' : JVal) (v : Outcome)
    (h : k' ≠ k) : dictLookup (dictInsert d k v) k' = dictLookup d k' := by
  have hk : ¬ k = k' := fun hh => h hh.symm
  induction d with
  | nil => simp [dictInsert, dictLookup, hk]
  | cons p rest ih =>
    by_cases hp : p.1 = k
    · have hp' : ¬ p.1 = k' := by rw [hp]; exact hk
      simp [dictInsert, dictLookup, hp, hk, hp']
    · simp [dictInsert, dictLookup, hp, ih]

/-- The outcome written last for key `k` among the ordered write sequence
`ps` (`none` when no write used that key). -/
def lastVal (ps : List (JVal × Outcome)) (k : JVal) : Option Outcome :=
  ((ps.filter (fun p => p.1 = k)).getLast?).map Prod.snd

theorem dictLookup_foldl_dictInsert (ps : List (JVal × Outcome)) :
    ∀ (d : ResultsMap) (k : JVal),
      dictLookup (ps.foldl (fun d p => dictInsert d p.1 p.2) d) k
        = (lastVal ps k).or (dictLookup d k) := by
  induction ps with
  | nil =>
    intro d k
    simp [lastVal]
  | cons p ps ih =>
    intro d k
    rw [List.foldl_cons, ih]
    by_cases hp : p.1 = k
    · subst hp
      rw [dictLookup_dictInsert_self]
      unfold lastVal
      rw [List.filter_cons_of_pos (by simp)]
      cases hf : ps.filter (fun q => q.1 = p.1) with
      | nil => simp
      | cons q qs =>
        rw [List.getLast?_cons_cons]
        obtain ⟨y, hy⟩ := Option.isSome_iff_exists.mp
          (List.getLast?_isSome.mpr (List.cons_ne_nil q qs))
        simp [hy]
    · rw [dictLookup_dictInsert_ne _ _ _ _ (fun hh => hp hh.symm)]
      unfold lastVal
      rw [List.filter_cons_of_neg (by simpa using hp)]

theorem dictLookup_buildResults (env : Env) (langs : List JVal) (k : JVal) :
    dictLookup (buildResults env langs) k = lastVal (attemptList env langs) k := by
  unfold buildResults
  rw [dictLookup_foldl_dictInsert]
  rw [show dictLookup [] k = none from rfl]
  exact Option.or_none

theorem attemptList_map_fst (env : Env) (langs : List JVal) :
    (attemptList env langs).map Prod.fst = langs := by
  unfold attemptList
  rw [List.map_map]
  exact List.enum_map_snd langs

theorem attemptList_length (env : Env) (langs : List JVal) :
    (attemptList env langs).length = langs.length := by
  simp [attemptList]

theorem attemptList_get (env : Env) (langs : List JVal) (i : Nat)
    (hi : i < langs.length) :
    (attemptList env langs).get ⟨i, by rw [attemptList_length]; exact hi⟩
      = (langs.get ⟨i, hi⟩, attemptOutcome env i (langs.get ⟨i, hi⟩)) := by
  simp [attemptList, List.getElem_enum]

theorem lastVal_isSome_of_mem {ps : List (JVal × Outcome)} {k : JVal}
    (h : k ∈ ps.map Prod.fst) : (lastVal ps k).isSome = true := by
  unfold lastVal
  rw [Option.isSome_map']
  rw [List.getLast?_isSome]
  intro hnil
  rw [List.filter_eq_nil_iff] at hnil
  obtain ⟨q, hq, hqk⟩ := List.mem_map.mp h
  exact hnil q hq (by simp [hqk])

theorem dictLookup_buildResults_isSome (env : Env) (langs : List JVal) (k : JVal)
    (h : k ∈ langs) : (dictLookup (buildResults env langs) k).isSome = true := by
  rw [dictLookup_buildResults]
  exact lastVal_isSome_of_mem (by rw [attemptList_map_fst]; exact h)

theorem length_filter_add_length_filter_not {α : Type} (l : List α) (p : α → Bool) :
    (l.filter p).length + (l.filter (fun a => !p a)).length = l.length := by
  induction l with
  | nil => rfl
  | cons a l ih =>
    by_cases h : p a = true <;> simp [List.filter_cons, h] <;> omega

/-- Keys of the results dict, in insertion order. -/
def dictKeys (d : ResultsMap) : List JVal := d.map Prod.fst

theorem dictInsert_length_notMem (d : ResultsMap) (k : JVal) (v : Outcome)
    (h : k ∉ dictKeys d) : (dictInsert d k v).length = d.length + 1 := by
  induction d with
  | nil => rfl
  | cons p rest ih =>
    rw [show dictKeys (p :: rest) = p.1 :: dictKeys rest from rfl] at h
    have hp : ¬ p.1 = k := fun hh => h (hh ▸ List.mem_cons_self _ _)
    have ht : k ∉ dictKeys rest := fun hm => h (List.mem_cons_of_mem _ hm)
    simp [dictInsert, hp, ih ht]

theorem dictKeys_dictInsert_notMem (d : ResultsMap) (k : JVal) (v : Outcome)
    (h : k ∉ dictKeys d) : dictKeys (dictInsert d k v) = dictKeys d ++ [k] := by
  induction d with
  | nil => rfl
  | cons p rest ih =>
    rw [show dictKeys (p :: rest) = p.1 :: dictKeys rest from rfl] at h
    have hp : ¬ p.1 = k := fun hh => h (hh ▸ List.mem_cons_self _ _)
    have ht : k ∉ dictKeys rest := fun hm => h (List.mem_cons_of_mem _ hm)
    rw [show dictInsert (p :: rest) k v = p :: dictInsert rest k v by simp [dictInsert, hp]]
    rw [show dictKeys (p :: dictInsert rest k v) = p.1 :: dictKeys (dictInsert rest k v) from rfl]
    rw [ih ht]
    rfl

theorem foldl_dictInsert_length (ps : List (JVal × Outcome)) :
    ∀ d : ResultsMap, (ps.map Prod.fst).Nodup →
      (∀ q ∈ ps, q.1 ∉ dictKeys d) →
      (ps.foldl (fun d p => dictInsert d p.1 p.2) d).length = d.length + ps.length := by
  induction ps with
  | nil =>
    intro d _ _
    simp
  | cons p ps ih =>
    intro d hnd hdis
    rw [List.map_cons, List.nodup_cons] at hnd
    rw [List.foldl_cons]
    rw [ih (dictInsert d p.1 p.2) hnd.2 ?_]
    · rw [dictInsert_length_notMem d p.1 p.2 (hdis p (List.mem_cons_self _ _))]
      rw [List.length_cons]
      omega
    · intro q hq
      rw [dictKeys_dictInsert_notMem d p.1 p.2 (hdis p (List.mem_cons_self _ _))]
      rw [List.mem_append]
      rintro (hin | hin)
      · exact hdis q (List.mem_cons_of_mem _ hq) hin
      · rw [List.mem_singleton] at hin
        exact hnd.1 (hin ▸ List.mem_map_of_mem Prod.fst hq)

theorem buildResults_length_nodup (env : Env) (langs : List JVal)
    (h : langs.Nodup) : (buildResults env langs).length = langs.length := by
  unfold buildResults
  rw [foldl_dictInsert_length _ [] (by rw [attemptList_map_fst]; exact h)
    (by intro q _ hq; simp [dictKeys] at hq)]
  simp [attemptList_length]

theorem emptyIssue_ne_missing (k : String) :
    "Empty value for key: " ++ k ≠ "Missing @@locale metadata" := by
  intro h
  have h2 : ("Empty value for key: " ++ k).data
      = ("Missing @@locale metadata" : String).data := by rw [h]
  rw [String.data_append] at h2
  rw [show ("Empty value for key: " : String).data
      = 'E' :: ("mpty value for key: " : String).data from rfl] at h2
  rw [show ("Missing @@locale metadata" : String).data
      = 'M' :: ("issing @@locale metadata" : String).data from rfl] at h2
  rw [List.cons_append] at h2
  injection h2 with hc _
  exact absurd hc (by decide)

theorem append_left_cancel_str {s t u : String} (h : s ++ t = s ++ u) : t = u := by
  have h2 := congrArg String.data h
  rw [String.data_append, String.data_append] at h2
  exact String.ext (List.append_cancel_left h2)

theorem nodup_keys_val_eq {kvs : List (String × JVal)} {k : String} {v w : JVal}
    (hnd : (kvs.map Prod.fst).Nodup) (hv : (k, v) ∈ kvs) (hw : (k, w) ∈ kvs) :
    v = w := by
  induction kvs with
  | nil => cases hv
  | cons p rest ih =>
    rw [List.map_cons, List.nodup_cons] at hnd
    rcases List.mem_cons.mp hv with hv1 | hv2 <;>
      rcases List.mem_cons.mp hw with hw1 | hw2
    · exact congrArg Prod.snd (hv1.trans hw1.symm)
    · exfalso
      apply hnd.1
      rw [← hv1]
      exact List.mem_map.mpr ⟨(k, w), hw2, rfl⟩
    · exfalso
      apply hnd.1
      rw [← hw1]
      exact List.mem_map.mpr ⟨(k, v), hv2, rfl⟩
    · exact ih hnd.2 hv2 hw2

/-! ## Reduction lemmas for the handlers -/

theorem validateHandler_obj_content {kvs bundle : List (String × JVal)}
    (h : objGet kvs "content" = some (.obj bundle)) :
    validateHandler (some (.obj kvs)) = .ok
      { valid := (bundleIssues (.obj bundle)).isEmpty
        issues := bundleIssues (.obj bundle)
        keyCount := ((bundle.map Prod.fst).filter (fun k => !pyStartsWith k "@")).length } := by
  have hkne : kvs ≠ [] := objGet_ne_nil h
  simp [validateHandler, jGet, jKeys, h, jTruthy_obj_of_ne_nil hkne]

theorem validateHandler_no_content {kvs : List (String × JVal)}
    (hne : kvs ≠ []) (h : objGet kvs "content" = none) :
    validateHandler (some (.obj kvs)) =
      .ok { valid := false, issues := ["Missing @@locale metadata"], keyCount := 0 } := by
  simp [validateHandler, jGet, jKeys, h, jTruthy_obj_of_ne_nil hne, bundleIssues, objGet]

theorem translateHandler_run (env : Env) {kvs : List (String × JVal)}
    {langs : List JVal} {p : String}
    (hct : jTruthy ((objGet kvs "content").getD (.obj [])) = true)
    (hl : objGet kvs "languages" = some (.arr langs)) (hne : langs ≠ [])
    (htemp : env.tempfile = .ok p) (hdump : env.dump = .ok ()) :
    translateHandler env (some (.obj kvs)) =
      ⟨.ok (buildResults env langs) (mkSummary langs (buildResults env langs)),
        ⟨true, true, langs.enum, 1⟩⟩ := by
  have hkne : kvs ≠ [] := objGet_ne_nil hl
  simp [translateHandler, jTruthy_obj_of_ne_nil hkne, hct, hl,
    jTruthy_arr_of_ne_nil hne, htemp, hdump, iterElems]

theorem kvs_ne_nil_of_content_truthy {kvs : List (String × JVal)}
    (hct : jTruthy ((objGet kvs "content").getD (.obj [])) = true) : kvs ≠ [] := by
  intro h
  subst h
  simp [objGet, jTruthy] at hct

/-! ## Concrete fixtures for witnesses and counterexamples -/

/-- Oracles for a call where every external step succeeds. -/
def envAllOk : Env :=
  { tempfile := .ok "/tmp/tmpabc.arb"
    dump := .ok ()
    attempt := fun _ _ => .ok ("/tmp/out.arb", .obj [("a", .str "hola")])
    unlinkOk := true }

/-- Oracles where the provider call raises exactly for language code "fr". -/
def envFrFails : Env :=
  { tempfile := .ok "/tmp/tmpabc.arb"
    dump := .ok ()
    attempt := fun _ l =>
      if l = .str "fr" then .error "Provider unavailable"
      else .ok ("/tmp/out.arb", .obj [("a", .str "x")])
    unlinkOk := true }

/-- Oracles where each attempt returns its own attempt index as content,
to tell duplicate attempts apart. -/
def envIdx : Env :=
  { tempfile := .ok "/tmp/tmpabc.arb"
    dump := .ok ()
    attempt := fun i _ => .ok ("/tmp/out.arb", .num i)
    unlinkOk := true }

/-- Oracles where `tempfile.NamedTemporaryFile` itself raises. -/
def envTempFails : Env :=
  { tempfile := .error "No usable temporary directory found"
    dump := .ok ()
    attempt := fun _ _ => .ok ("/tmp/out.arb", .obj [])
    unlinkOk := true }

/-- Oracles where the temp file is created but `json.dump` into it raises. -/
def envDumpFails : Env :=
  { tempfile := .ok "/tmp/tmpabc.arb"
    dump := .error "No space left on device"
    attempt := fun _ _ => .ok ("/tmp/out.arb", .obj [])
    unlinkOk := true }

/-- Request entries `{content: {a: b}, languages: [es, fr]}`. -/
def kvsEsFr : List (String × JVal) :=
  [("content", .obj [("a", .str "b")]), ("languages", .arr [.str "es", .str "fr"])]

/-- The language list of `kvsEsFr`. -/
def langsEsFr : List JVal := [.str "es", .str "fr"]

/-- Request entries `{content: {a: b}, languages: [es, es]}`. -/
def kvsEsEs : List (String × JVal) :=
  [("content", .obj [("a", .str "b")]), ("languages", .arr [.str "es", .str "es"])]

/-- The language list of `kvsEsEs`. -/
def langsEsEs : List JVal := [.str "es", .str "es"]

/-! ## Claims -/

/-- C1: Partial-failure isolation in `/translate`.  For every request
passing the preconditions and staging: the response is a 200 carrying the
results map and summary; one provider call is made per element of
`languages`, in request order; an attempt whose provider call raises (any
exception kind) is recorded as `Failed` carrying the exception message
and is not propagated; an attempt that succeeds is recorded as
translated; and the results map holds an outcome for every requested
language. -/
theorem translate_partial_failure_isolation (env : Env)
    (kvs : List (String × JVal)) (langs : List JVal) (p : String)
    (hct : jTruthy ((objGet kvs "content").getD (.obj [])) = true)
    (hl : objGet kvs "languages" = some (.arr langs)) (hne : langs ≠ [])
    (htemp : env.tempfile = .ok p) (hdump : env.dump = .ok ()) :
    (translateHandler env (some (.obj kvs))).resp
        = .ok (buildResults env langs) (mkSummary langs (buildResults env langs)) ∧
    (translateHandler env (some (.obj kvs))).trace.providerCalls = langs.enum ∧
    (∀ (i : Nat) (hi : i < langs.length) (e : String),
        env.attempt i (langs.get ⟨i, hi⟩) = .error e →
        (attemptList env langs).get ⟨i, by rw [attemptList_length]; exact hi⟩
          = (langs.get ⟨i, hi⟩, .failed e)) ∧
    (∀ (i : Nat) (hi : i < langs.length) (path : String) (c : JVal),
        env.attempt i (langs.get ⟨i, hi⟩) = .ok (path, c) →
        (attemptList env langs).get ⟨i, by rw [attemptList_length]; exact hi⟩
          = (langs.get ⟨i, hi⟩, .translated c path)) ∧
    (∀ l ∈ langs, (dictLookup (buildResults env langs) l).isSome = true) := by
  refine ⟨?_, ?_, ?_, ?_, ?_⟩
  · rw [translateHandler_run env hct hl hne htemp hdump]
  · rw [translateHandler_run env hct hl hne htemp hdump]
  · intro i hi e he
    rw [attemptList_get env langs i hi]
    simp only [List.get_eq_getElem] at he
    simp [attemptOutcome, he]
  · intro i hi path c hc
    rw [attemptList_get env langs i hi]
    simp only [List.get_eq_getElem] at hc
    simp [attemptOutcome, hc]
  · intro l hmem
    exact dictLookup_buildResults_isSome env langs l hmem

theorem translate_partial_failure_isolation_witness :
    (translateHandler envFrFails (some (.obj kvsEsFr))).resp
      = .ok [(.str "es", .translated (.obj [("a", .str "x")]) "/tmp/out.arb"),
             (.str "fr", .failed "Provider unavailable")]
          ⟨2, 1, 1⟩ := by
  have h := translate_partial_failure_isolation envFrFails kvsEsFr langsEsFr
    "/tmp/tmpabc.arb" (by decide) (by decide) (by decide) rfl rfl
  rw [h.1]
  decide

/-- C2 counterexample: with duplicate target languages, the summary of a
successful response violates `successful + failed == totalLanguages`:
`{content: {a: b}, languages: [es, es]}` against an always-succeeding
provider yields `totalLanguages 2, successful 1, failed 0`, because the
counts are taken over the deduplicated results dict. -/
theorem translate_summary_duplicates_cex :
    (translateHandler envAllOk (some (.obj kvsEsEs))).resp
      = .ok [(.str "es", .translated (.obj [("a", .str "hola")]) "/tmp/out.arb")]
          ⟨2, 1, 0⟩
    ∧ (1 : Nat) + 0 ≠ 2 := ⟨by decide, by decide⟩

/-- C2 (amended): for every successful `/translate` response,
`summary.totalLanguages = len(request.languages)`, while
`summary.successful + summary.failed` equals the number of entries of the
results dict (one per distinct language attempted); when the request's
languages contain no duplicates the sum equals `totalLanguages`, but each
duplicate makes the sum fall short of it. -/
theorem translate_summary_invariant (env : Env)
    (kvs : List (String × JVal)) (langs : List JVal) (p : String)
    (hct : jTruthy ((objGet kvs "content").getD (.obj [])) = true)
    (hl : objGet kvs "languages" = some (.arr langs)) (hne : langs ≠ [])
    (htemp : env.tempfile = .ok p) (hdump : env.dump = .ok ()) :
    (translateHandler env (some (.obj kvs))).resp
        = .ok (buildResults env langs) (mkSummary langs (buildResults env langs)) ∧
    (mkSummary langs (buildResults env langs)).totalLanguages = langs.length ∧
    (mkSummary langs (buildResults env langs)).successful
        + (mkSummary langs (buildResults env langs)).failed
        = (buildResults env langs).length ∧
    (langs.Nodup →
      (mkSummary langs (buildResults env langs)).successful
          + (mkSummary langs (buildResults env langs)).failed = langs.length) := by
  have hsum : (mkSummary langs (buildResults env langs)).successful
      + (mkSummary langs (buildResults env langs)).failed
      = (buildResults env langs).length :=
    length_filter_add_length_filter_not (buildResults env langs) (fun q => q.2.isSuccess)
  refine ⟨?_, rfl, hsum, ?_⟩
  · rw [translateHandler_run env hct hl hne htemp hdump]
  · intro hnd
    rw [hsum]
    exact buildResults_length_nodup env langs hnd

theorem translate_summary_invariant_witness :
    (mkSummary langsEsFr (buildResults envFrFails langsEsFr)).successful
      + (mkSummary langsEsFr (buildResults envFrFails langsEsFr)).failed
      = langsEsFr.length := by
  have h := translate_summary_invariant envFrFails kvsEsFr langsEsFr
    "/tmp/tmpabc.arb" (by decide) (by decide) (by decide) rfl rfl
  exact h.2.2.2 (by decide)

/-- C3 counterexample: the staging artifact can be created and still leak.
When `tempfile.NamedTemporaryFile` succeeds but the `json.dump` into it
raises (for example, the disk fills up), the temporary source file exists
and `os.unlink` is never invoked: the `try/finally` of lines 80-107 has
not been entered at that point. -/
theorem translate_cleanup_cex :
    (translateHandler envDumpFails (some (.obj kvsEsFr))).trace.fileCreated = true ∧
    (translateHandler envDumpFails (some (.obj kvsEsFr))).trace.unlinkCalls = 0 :=
  ⟨by decide, by decide⟩

/-- C3 (amended): for every `/translate` call in which the whole staging
step succeeds (the temp file is created and `json.dump` into it
completes), `os.unlink` on the source path is invoked exactly once before
the call returns, on every exit path (all attempts succeed, some fail,
all fail, or the loop itself raises on a non-iterable `languages`), and
whether the unlink itself succeeds or raises has no effect on the call's
outcome (the failure is swallowed).  If `json.dump` raises after the file
was created, the file is never removed and the request fails with 500. -/
theorem translate_cleanup (env : Env) (kvs : List (String × JVal)) (p : String)
    (hct : jTruthy ((objGet kvs "content").getD (.obj [])) = true)
    (hlt : jTruthy ((objGet kvs "languages").getD (.arr [])) = true)
    (htemp : env.tempfile = .ok p) (hdump : env.dump = .ok ()) :
    (translateHandler env (some (.obj kvs))).trace.unlinkCalls = 1 ∧
    ∀ b, translateHandler { env with unlinkOk := b } (some (.obj kvs))
        = translateHandler env (some (.obj kvs)) := by
  have hkne := kvs_ne_nil_of_content_truthy hct
  constructor
  · cases hit : iterElems ((objGet kvs "languages").getD (.arr [])) with
    | error e =>
      simp [translateHandler, jTruthy_obj_of_ne_nil hkne, hct, hlt, htemp, hdump, hit]
    | ok langs =>
      simp [translateHandler, jTruthy_obj_of_ne_nil hkne, hct, hlt, htemp, hdump, hit]
  · intro b
    cases env
    rfl

theorem translate_cleanup_witness :
    (translateHandler envAllOk (some (.obj kvsEsFr))).trace.unlinkCalls = 1 :=
  (translate_cleanup envAllOk kvsEsFr "/tmp/tmpabc.arb"
    (by decide) (by decide) rfl rfl).1

/-- C4 (code bug): a `/validate` request whose `content` is present but
not a mapping does not get the promised single-issue report: after the
`isinstance` branch appends the structural issue, line 167 still
evaluates `content.keys()` on the non-`dict` value, which raises
`AttributeError`, so the handler answers 500 with an error body instead
of a ValidationReport. -/
theorem validate_nonmapping_raises (kvs : List (String × JVal)) (c : JVal)
    (hc : objGet kvs "content" = some c) (hnd : ∀ l, c ≠ .obj l) :
    validateHandler (some (.obj kvs))
      = .err500 ("Validation failed: "
          ++ ("'" ++ pyType c ++ "' object has no attribute 'keys'")) := by
  have hkne := objGet_ne_nil hc
  have hkeys : jKeys c
      = .error ("'" ++ pyType c ++ "' object has no attribute 'keys'") := by
    cases c
    case obj l => exact absurd rfl (hnd l)
    all_goals rfl
  simp [validateHandler, jGet, hc, jTruthy_obj_of_ne_nil hkne, hkeys]

theorem validate_nonmapping_raises_witness :
    validateHandler (some (.obj [("content", .arr [.str "x"])]))
      = .err500 "Validation failed: 'list' object has no attribute 'keys'" :=
  validate_nonmapping_raises [("content", .arr [.str "x"])] (.arr [.str "x"])
    rfl (fun l h => JVal.noConfusion h)

/-- C5: Duplicate-language handling: one independent provider attempt is
made per element of `request.languages` in request order (so duplicates
trigger separate provider calls and separate recorded outcomes), and the
results map holds, for each language code, exactly the outcome written
last for that code. -/
theorem translate_duplicate_languages (env : Env)
    (kvs : List (String × JVal)) (langs : List JVal) (p : String)
    (hct : jTruthy ((objGet kvs "content").getD (.obj [])) = true)
    (hl : objGet kvs "languages" = some (.arr langs)) (hne : langs ≠ [])
    (htemp : env.tempfile = .ok p) (hdump : env.dump = .ok ()) :
    (translateHandler env (some (.obj kvs))).trace.providerCalls = langs.enum ∧
    (∀ (i : Nat) (hi : i < langs.length),
        (attemptList env langs).get ⟨i, by rw [attemptList_length]; exact hi⟩
          = (langs.get ⟨i, hi⟩, attemptOutcome env i (langs.get ⟨i, hi⟩))) ∧
    (translateHandler env (some (.obj kvs))).resp
        = .ok (buildResults env langs) (mkSummary langs (buildResults env langs)) ∧
    (∀ code, dictLookup (buildResults env langs) code
        = lastVal (attemptList env langs) code) := by
  refine ⟨?_, ?_, ?_, ?_⟩
  · rw [translateHandler_run env hct hl hne htemp hdump]
  · intro i hi
    exact attemptList_get env langs i hi
  · rw [translateHandler_run env hct hl hne htemp hdump]
  · intro code
    exact dictLookup_buildResults env langs code

theorem translate_duplicate_languages_witness :
    dictLookup (buildResults envIdx langsEsEs) (.str "es")
      = some (.translated (.num 1) "/tmp/out.arb") := by
  have h := translate_duplicate_languages envIdx kvsEsEs langsEsEs
    "/tmp/tmpabc.arb" (by decide) (by decide) (by decide) rfl rfl
  rw [h.2.2.2 (.str "es")]
  decide

/-- C6: Validator correctness on mapping input: the report for a mapping
bundle contains the missing-locale issue iff `@@locale` is absent,
contains an empty-value issue for each non-metadata key whose value is
the empty string or null (both checks evaluated independently, not
short-circuiting), has `keyCount` equal to the number of keys not
starting with `@`, and is valid iff the issue list is empty. -/
theorem validate_mapping_correct (bundle : List (String × JVal)) :
    ∃ r, validateHandler (some (.obj [("content", .obj bundle)])) = .ok r ∧
      ("Missing @@locale metadata" ∈ r.issues ↔ objGet bundle "@@locale" = none) ∧
      (∀ k v, (k, v) ∈ bundle → pyStartsWith k "@" = false →
          (v = .str "" ∨ v = .null) →
          ("Empty value for key: " ++ k) ∈ r.issues) ∧
      r.keyCount
        = ((bundle.map Prod.fst).filter (fun s => !pyStartsWith s "@")).length ∧
      (r.valid = true ↔ r.issues = []) := by
  refine ⟨_, validateHandler_obj_content rfl, ?_, ?_, rfl, ?_⟩
  · constructor
    · intro hm
      by_contra hne
      have hs : (objGet bundle "@@locale").isSome :=
        Option.isSome_iff_ne_none.mpr hne
      simp only [bundleIssues, if_pos hs, List.nil_append] at hm
      obtain ⟨kv, hkv, hif⟩ := List.mem_filterMap.mp hm
      split at hif
      · exact emptyIssue_ne_missing kv.1 (Option.some.inj hif)
      · cases hif
    · intro hn
      simp [bundleIssues, hn]
  · intro k v hkv hk hv
    simp only [bundleIssues]
    rw [List.mem_append]
    right
    exact List.mem_filterMap.mpr
      ⟨(k, v), hkv, by rcases hv with rfl | rfl <;> simp [hk]⟩
  · exact List.isEmpty_iff

theorem validate_mapping_correct_witness :
    ∃ r, validateHandler (some (.obj [("content", .obj [("hello", .str "")])])) = .ok r ∧
      ("Missing @@locale metadata" ∈ r.issues
          ↔ objGet [("hello", .str "")] "@@locale" = none) ∧
      (∀ k v, (k, v) ∈ [("hello", JVal.str "")] → pyStartsWith k "@" = false →
          (v = .str "" ∨ v = .null) →
          ("Empty value for key: " ++ k) ∈ r.issues) ∧
      r.keyCount
        = (([("hello", JVal.str "")].map Prod.fst).filter
            (fun s => !pyStartsWith s "@")).length ∧
      (r.valid = true ↔ r.issues = []) :=
  validate_mapping_correct [("hello", .str "")]

/-- C7: Input rejection: a `/translate` request whose body is falsy, whose
content is empty/falsy, or whose languages value is empty/falsy is
rejected whole with a 400 error (distinct messages for empty content and
empty languages), before the staging block runs, before any temporary
file exists, and before any provider call; no results map is produced. -/
theorem translate_input_rejection (env : Env) (kvs : List (String × JVal)) :
    (jTruthy (.obj kvs) = false →
      translateHandler env (some (.obj kvs))
        = ⟨.err400 "No JSON payload provided", ⟨false, false, [], 0⟩⟩) ∧
    (jTruthy (.obj kvs) = true →
      jTruthy ((objGet kvs "content").getD (.obj [])) = false →
      translateHandler env (some (.obj kvs))
        = ⟨.err400 "No content provided", ⟨false, false, [], 0⟩⟩) ∧
    (jTruthy (.obj kvs) = true →
      jTruthy ((objGet kvs "content").getD (.obj [])) = true →
      jTruthy ((objGet kvs "languages").getD (.arr [])) = false →
      translateHandler env (some (.obj kvs))
        = ⟨.err400 "No target languages specified", ⟨false, false, [], 0⟩⟩) := by
  refine ⟨?_, ?_, ?_⟩
  · intro h1
    simp [translateHandler, h1]
  · intro h1 h2
    simp [translateHandler, h1, h2]
  · intro h1 h2 h3
    simp [translateHandler, h1, h2, h3]

theorem translate_input_rejection_witness :
    translateHandler envAllOk
        (some (.obj [("content", .obj []), ("languages", .arr [.str "es"])]))
      = ⟨.err400 "No content provided", ⟨false, false, [], 0⟩⟩ ∧
    translateHandler envAllOk
        (some (.obj [("content", .obj [("a", .str "b")]), ("languages", .arr [])]))
      = ⟨.err400 "No target languages specified", ⟨false, false, [], 0⟩⟩ :=
  ⟨(translate_input_rejection envAllOk _).2.1 (by decide) (by decide),
   (translate_input_rejection envAllOk _).2.2 (by decide) (by decide) (by decide)⟩

/-- C8: Staging failure: when the preconditions pass and the staging block
raises — either the temp-file creation itself or the `json.dump` into it
— the whole request fails with a 500 error carrying the exception
message, no per-language provider attempt is made, and no results map is
produced. -/
theorem translate_staging_failure (env : Env) (kvs : List (String × JVal))
    (hct : jTruthy ((objGet kvs "content").getD (.obj [])) = true)
    (hlt : jTruthy ((objGet kvs "languages").getD (.arr [])) = true) :
    (∀ e, env.tempfile = .error e →
        translateHandler env (some (.obj kvs))
          = ⟨.err500 ("Translation failed: " ++ e), ⟨true, false, [], 0⟩⟩) ∧
    (∀ q e, env.tempfile = .ok q → env.dump = .error e →
        translateHandler env (some (.obj kvs))
          = ⟨.err500 ("Translation failed: " ++ e), ⟨true, true, [], 0⟩⟩) := by
  have hkne := kvs_ne_nil_of_content_truthy hct
  constructor
  · intro e he
    simp [translateHandler, jTruthy_obj_of_ne_nil hkne, hct, hlt, he]
  · intro q e hq he
    simp [translateHandler, jTruthy_obj_of_ne_nil hkne, hct, hlt, hq, he]

theorem translate_staging_failure_witness :
    translateHandler envTempFails (some (.obj kvsEsFr))
      = ⟨.err500 "Translation failed: No usable temporary directory found",
         ⟨true, false, [], 0⟩⟩ :=
  (translate_staging_failure envTempFails kvsEsFr (by decide) (by decide)).1
    "No usable temporary directory found" rfl

/-- C9 counterexample: the empty JSON object body lacks `content` yet is
rejected with 400: `if not data` treats the empty dict like a missing
payload, so the claim fails for that body. -/
theorem validate_missing_content_cex :
    validateHandler (some (.obj [])) = .err400 "No JSON payload provided" := by
  decide

/-- C9 (amended): for every `/validate` body that is a non-empty JSON
object without a `content` key, the content defaults to the empty mapping
and the endpoint returns a 200 report with `valid = false`,
`issues = [Missing @@locale metadata]` and `keyCount = 0`; the empty
object body is instead rejected with 400 as a missing payload. -/
theorem validate_missing_content (kvs : List (String × JVal))
    (hne : kvs ≠ []) (h : objGet kvs "content" = none) :
    validateHandler (some (.obj kvs))
      = .ok { valid := false, issues := ["Missing @@locale metadata"], keyCount := 0 } :=
  validateHandler_no_content hne h

theorem validate_missing_content_witness :
    validateHandler (some (.obj [("languages", .arr [.str "es"])]))
      = .ok { valid := false, issues := ["Missing @@locale metadata"], keyCount := 0 } :=
  validate_missing_content [("languages", .arr [.str "es"])]
    (by decide) (by decide)

/-- C10: The validator flags only values that are exactly the empty string
or null: a non-metadata key bound to any other value (a number, boolean,
list, object or non-empty string) produces no empty-value issue and still
counts toward `keyCount`; in particular the bundle
`{@@locale: en, a: 5}` is reported valid with `keyCount = 1`. -/
theorem validate_nonempty_value_unflagged (bundle : List (String × JVal))
    (k : String) (v : JVal) (hnd : (bundle.map Prod.fst).Nodup)
    (hmem : (k, v) ∈ bundle) (hk : pyStartsWith k "@" = false)
    (hv1 : v ≠ .str "") (hv2 : v ≠ .null) :
    (∃ r, validateHandler (some (.obj [("content", .obj bundle)])) = .ok r ∧
      ("Empty value for key: " ++ k) ∉ r.issues ∧
      r.keyCount
        = ((bundle.map Prod.fst).filter (fun s => !pyStartsWith s "@")).length) ∧
    validateHandler
        (some (.obj [("content", .obj [("@@locale", .str "en"), ("a", .num 5)])]))
      = .ok { valid := true, issues := [], keyCount := 1 } := by
  constructor
  · refine ⟨_, validateHandler_obj_content rfl, ?_, rfl⟩
    intro hm
    simp only [bundleIssues] at hm
    rcases List.mem_append.mp hm with hm1 | hm2
    · by_cases hs : (objGet bundle "@@locale").isSome
      · rw [if_pos hs] at hm1
        exact absurd hm1 (List.not_mem_nil _)
      · rw [if_neg hs] at hm1
        exact emptyIssue_ne_missing k (List.mem_singleton.mp hm1)
    · obtain ⟨kv, hkv, hif⟩ := List.mem_filterMap.mp hm2
      split at hif
      next hcond =>
        have hkk : kv.1 = k := append_left_cancel_str (Option.some.inj hif)
        have hmem2 : (k, kv.2) ∈ bundle := by
          rw [← hkk]
          exact hkv
        have hvv : kv.2 = v := nodup_keys_val_eq hnd hmem2 hmem
        rcases hcond.2 with h | h
        · exact hv1 (hvv.symm.trans h)
        · exact hv2 (hvv.symm.trans h)
      next =>
        cases hif
  · decide

theorem validate_nonempty_value_unflagged_witness :
    (∃ r, validateHandler
        (some (.obj [("content", .obj [("@@locale", .str "en"), ("a", .num 5)])]))
        = .ok r ∧
      ("Empty value for key: " ++ "a") ∉ r.issues ∧
      r.keyCount
        = (([("@@locale", JVal.str "en"), ("a", JVal.num 5)].map Prod.fst).filter
            (fun s => !pyStartsWith s "@")).length) ∧
    validateHandler
        (some (.obj [("content", .obj [("@@locale", .str "en"), ("a", .num 5)])]))
      = .ok { valid := true, issues := [], keyCount := 1 } :=
  validate_nonempty_value_unflagged
    [("@@locale", .str "en"), ("a", .num 5)] "a" (.num 5)
    (by decide) (by decide) (by decide) (by decide) (by decide)
